import Mathlib

/-!
Verification development for the MOMENTS application core
(src/App.tsx of montazer-09/MOMENTS).

The moment lifecycle state model, its derived analytics and the
notification contract are embedded shallowly:

* Calendar dates are modelled as integer day indices on a single
  midnight-to-midnight grid; `midnight d` is the corresponding
  millisecond timestamp, so the arithmetic of `getDaysRemaining`
  (difference of midnights, divided by the milliseconds of one day,
  rounded up with Math.ceil) is reproduced exactly over rationals.
* Timestamps (createdAt, emotion-log dates, completion dates) are
  integers in milliseconds.
* The enums MomentType, Priority and EmotionType and the field lists of
  Task, EmotionLog, Reflection and Moment live in src/types.ts, which is
  not part of the sources; they are modelled from the spec (section 3 of
  the design document) and from their uses in src/App.tsx.
* React state updates become explicit state passing: each handler is a
  function from its inputs and the previous collection to the new
  collection; localStorage is a list of stored keys; emitted browser
  notifications are collected in a list.
-/

namespace Moments

/-- Modelled from the spec: category enum study|work|personal|travel|goal
(src/types.ts is absent from the sources; members match the uses
MomentType.STUDY .. MomentType.GOAL in src/App.tsx). -/
inductive MomentType where
  | study | work | personal | travel | goal
deriving DecidableEq, Repr

/-- Modelled from the spec: priority enum low|medium|high. -/
inductive Priority where
  | low | medium | high
deriving DecidableEq, Repr

/-- Modelled from the spec: emotion enum happy|excited|worried|stressed
plus a neutral class. -/
inductive EmotionType where
  | happy | excited | worried | stressed | neutral
deriving DecidableEq, Repr

/-- Status literals used throughout src/App.tsx. -/
inductive MomentStatus where
  | active | completed | archived
deriving DecidableEq, Repr

/-- Modelled from the spec: Task record (id, text, isCompleted). -/
structure Task where
  id : String
  text : String
  isCompleted : Bool
deriving DecidableEq, Repr

/-- Modelled from the spec: EmotionLog record; date is a millisecond
timestamp, note is optional. -/
structure EmotionLog where
  id : String
  date : Int
  emotion : EmotionType
  note : Option String
deriving DecidableEq, Repr

/-- Modelled from the spec: Reflection record written at completion. -/
structure Reflection where
  rating : Nat
  lessons : String
  repeatable : Bool
  completedDate : Int
deriving DecidableEq, Repr

/-- Modelled from the spec: Moment record; date is a calendar day index,
createdAt a millisecond timestamp, reflection optional. -/
structure Moment where
  id : String
  title : String
  date : Int
  type : MomentType
  priority : Priority
  initialEmotion : EmotionType
  notes : String
  tasks : List Task
  status : MomentStatus
  createdAt : Int
  emotionHistory : List EmotionLog
  reflection : Option Reflection
deriving DecidableEq, Repr

/-- Milliseconds of one day, the divisor 1000 * 3600 * 24 of
getDaysRemaining in src/App.tsx. -/
def msPerDay : Int := 1000 * 3600 * 24

/-- Millisecond timestamp of the midnight starting calendar day d
(new Date(targetDate).getTime() for the target, new
Date().setHours(0,0,0,0) for the reference day in src/App.tsx). -/
def midnight (d : Int) : Int := d * msPerDay

/-- getDaysRemaining of src/App.tsx: Math.ceil of the millisecond
difference of the two midnights divided by one day, computed here over
the rationals with the integer ceiling. -/
def getDaysRemaining (targetDate today : Int) : Int :=
  ⌈((midnight targetDate - midnight today : Int) : ℚ) / ((msPerDay : Int) : ℚ)⌉

/-- addMoment of src/App.tsx: setMoments([...moments, moment]). -/
def addMoment (moment : Moment) (moments : List Moment) : List Moment :=
  moments ++ [moment]

/-- updateMoment of src/App.tsx: moments.map(m given m.id equal to
updatedMoment.id then updatedMoment else m). -/
def updateMoment (updatedMoment : Moment) (moments : List Moment) : List Moment :=
  moments.map (fun m => if m.id = updatedMoment.id then updatedMoment else m)

/-- deleteMoment of src/App.tsx: moments.filter(m with m.id distinct
from id). -/
def deleteMoment (id : String) (moments : List Moment) : List Moment :=
  moments.filter (fun m => m.id ≠ id)

/-- activeMoments of src/App.tsx: the moments with status active, sorted
ascending by date (the comparator a.date - b.date). -/
def activeMoments (moments : List Moment) : List Moment :=
  (moments.filter (fun m => m.status = MomentStatus.active)).insertionSort
    (fun a b => a.date ≤ b.date)

/-- urgentMoments of the DashboardView in src/App.tsx: active moments
with at most 7 days remaining and high priority. -/
def urgentMoments (today : Int) (moments : List Moment) : List Moment :=
  (activeMoments moments).filter
    (fun m => getDaysRemaining m.date today ≤ 7 ∧ m.priority = Priority.high)

/-- stressScore of the DashboardView in src/App.tsx:
urgentMoments.length * 2 + activeMoments.length. -/
def stressScore (today : Int) (moments : List Moment) : Nat :=
  (urgentMoments today moments).length * 2 + (activeMoments moments).length

/-- Vibe labels of the DashboardView (the translated strings chill,
balanced, hectic). -/
inductive Vibe where
  | chill | balanced | hectic
deriving DecidableEq, Repr

/-- Vibe computation of the DashboardView in src/App.tsx: start at
chill, overwrite with balanced when the score exceeds 5, overwrite with
hectic when it exceeds 10. -/
def vibeOf (score : Nat) : Vibe :=
  let v := Vibe.chill
  let v := if score > 5 then Vibe.balanced else v
  let v := if score > 10 then Vibe.hectic else v
  v

/-- Task list built by handleSave in src/App.tsx: tasks.map(txt to a
fresh id, the text and isCompleted false); tid models the generateId
supply, applied to the position of the task. -/
def buildTasks (tid : Nat → String) (texts : List String) : List Task :=
  texts.enum.map (fun p => { id := tid p.1, text := p.2, isCompleted := false })

/-- handleSave of the CreateMomentView in src/App.tsx. The guard
(not title or not date) returns without touching the collection; an
empty date input is modelled as none. On success the new Moment gets
status active, createdAt now and a seeded emotionHistory entry with the
note Initial feeling, and is appended via addMoment. momentId, tid and
logId model the generateId calls, now the current timestamp. -/
def handleSave (momentId : String) (tid : Nat → String) (logId : String)
    (now : Int) (title : String) (date : Option Int) (mt : MomentType)
    (pr : Priority) (emotion : EmotionType) (notes : String)
    (taskTexts : List String) (moments : List Moment) : List Moment :=
  match date with
  | none => moments
  | some d =>
    if title = "" then moments
    else
      addMoment
        { id := momentId, title := title, date := d, type := mt, priority := pr,
          initialEmotion := emotion, notes := notes,
          tasks := buildTasks tid taskTexts,
          status := MomentStatus.active, createdAt := now,
          emotionHistory :=
            [{ id := logId, date := now, emotion := emotion,
               note := some "Initial feeling" }],
          reflection := none }
        moments

/-- handleUpdate of the EditMomentView in src/App.tsx: same guard as
handleSave, then a full replace by id via updateMoment, spreading the
edited title, date, type, priority, notes and tasks over the old
moment. -/
def handleUpdate (m : Moment) (title : String) (date : Option Int)
    (mt : MomentType) (pr : Priority) (notes : String) (tasks : List Task)
    (moments : List Moment) : List Moment :=
  match date with
  | none => moments
  | some d =>
    if title = "" then moments
    else
      updateMoment
        { m with title := title, date := d, type := mt, priority := pr,
                 notes := notes, tasks := tasks }
        moments

/-- handleSaveReflection of the MemoryReflectionView in src/App.tsx:
returns unchanged when rating is 0, otherwise builds the Reflection
(rating, lessons, double negation of the nullable repeatable flag,
completedDate now) and replaces the moment with status completed and the
reflection attached. -/
def handleSaveReflection (m : Moment) (rating : Nat) (lessons : String)
    (repeatable : Option Bool) (now : Int) (moments : List Moment) :
    List Moment :=
  if rating = 0 then moments
  else
    updateMoment
      { m with status := MomentStatus.completed,
               reflection := some { rating := rating, lessons := lessons,
                                    repeatable := repeatable = some true,
                                    completedDate := now } }
      moments

/-- Postpone handler of the DetailMomentView in src/App.tsx (past-due
branch): d.setDate(d.getDate() + 7) shifts the calendar date forward by
7 days; the result is passed to updateMoment. -/
def postponeMoment (m : Moment) : Moment :=
  { m with date := m.date + 7 }

/-- toggleTask of the DetailMomentView in src/App.tsx: flips isCompleted
of the task with the given id. -/
def toggleTask (taskId : String) (m : Moment) : Moment :=
  { m with tasks :=
      m.tasks.map fun t =>
        if t.id = taskId then { t with isCompleted := !t.isCompleted } else t }

/-- addEmotionLog of the DetailMomentView in src/App.tsx: appends a
fresh EmotionLog (no note) to the emotionHistory. -/
def addEmotionLog (logId : String) (now : Int) (emo : EmotionType)
    (m : Moment) : Moment :=
  { m with emotionHistory :=
      m.emotionHistory ++ [{ id := logId, date := now, emotion := emo, note := none }] }

/-- Browser notification as constructed by src/App.tsx: new
Notification with the fixed title MOMENTS and a reminder body. -/
structure AppNotification where
  title : String
  body : String
deriving DecidableEq, Repr

/-- Deduplication key of the notification check in src/App.tsx:
notified-, the moment id, - and the date string of the current day. -/
def notifiedKey (momentId : String) (todayStr : String) : String :=
  "notified-" ++ momentId ++ "-" ++ todayStr

/-- Reminder body of the notification check in src/App.tsx, for lang ar
or en. -/
def reminderBody (lang : String) (title : String) : String :=
  (if lang = "ar" then "تذكير" else "Reminder") ++ ": " ++ title ++ " "
    ++ (if lang = "ar" then "قريب جداً!" else "is coming up!")

/-- Loop body of the notification check in src/App.tsx: for each
upcoming moment, when its dedup key is not in localStorage, emit the
notification and store the key; the store is the list of localStorage
keys that are set. -/
def fireReminders (lang todayStr : String) :
    List Moment → List String → List AppNotification × List String
  | [], store => ([], store)
  | m :: rest, store =>
    let key := notifiedKey m.id todayStr
    if key ∈ store then fireReminders lang todayStr rest store
    else
      let out := fireReminders lang todayStr rest (key :: store)
      ({ title := "MOMENTS", body := reminderBody lang m.title } :: out.1, out.2)

/-- Notification check effect of src/App.tsx: when there is at least one
active moment, the Notification API exists and permission is granted,
filter the active moments to those with 0 or 1 days remaining and fire a
deduplicated reminder for each; otherwise do nothing. Returns the
emitted notifications and the new localStorage key set. -/
def checkNotifications (today : Int) (todayStr lang : String)
    (hasNotificationAPI : Bool) (permission : String)
    (moments : List Moment) (store : List String) :
    List AppNotification × List String :=
  if (activeMoments moments).length > 0 ∧ hasNotificationAPI
      ∧ permission = "granted" then
    let upcoming := (activeMoments moments).filter (fun m =>
      let days := getDaysRemaining m.date today
      days = 0 ∨ days = 1)
    fireReminders lang todayStr upcoming store
  else ([], store)

/-- emotionScore computation of the StatsView in src/App.tsx: score
starts at 3, becomes 5 for happy or excited, becomes 1 for worried or
stressed. -/
def emotionScore (e : EmotionType) : Nat :=
  let score := 3
  let score := if e = EmotionType.happy ∨ e = EmotionType.excited then 5 else score
  let score := if e = EmotionType.worried ∨ e = EmotionType.stressed then 1 else score
  score

/-- emotionData of the StatsView in src/App.tsx: flatten every
EmotionLog of every moment to a pair of its timestamp and its
emotionScore, then sort ascending by the timestamp (comparator
a.date - b.date). -/
def emotionTimeline (moments : List Moment) : List (Int × Nat) :=
  ((moments.map (fun m =>
      m.emotionHistory.map (fun log => (log.date, emotionScore log.emotion)))).flatten).insertionSort
    (fun a b => a.1 ≤ b.1)

/-- Structured plan response of the AI assistant as consumed by
handleMagicPlan in src/App.tsx; a field that is absent from the parsed
JSON object is none (the JS value undefined). -/
structure AIPlanResponse where
  title : Option String
  type : Option String
  priority : Option String
  notes : Option String
  tasks : Option (List String)
deriving DecidableEq, Repr

/-- Create-form fields touched by handleMagicPlan in src/App.tsx; after
a setter is called with an absent field the state holds undefined,
modelled as none. -/
structure CreateFormState where
  title : Option String
  type : Option String
  priority : Option String
  notes : Option String
  tasks : Option (List String)
deriving DecidableEq, Repr

/-- Well-formedness of an AI plan response per the structured plan shape
(title, type, priority, notes, tasks all present). -/
def wellFormedPlan (d : AIPlanResponse) : Bool :=
  d.title.isSome && d.type.isSome && d.priority.isSome && d.notes.isSome
    && d.tasks.isSome

/-- handleMagicPlan of the CreateMomentView in src/App.tsx (the function
wrapper and try block are truncated in the source; the visible body
fetches, parses res.json() and then calls setTitle, setType,
setPriority, setNotes, setTasks with the parsed fields, and the visible
catch block alerts once and leaves the form alone). A request failure or
unparseable body is response none; a parsed JSON object is some d with
its fields, absent ones none. Returns whether the failure alert was
shown, and the resulting form state. -/
def handleMagicPlan (response : Option AIPlanResponse)
    (form : CreateFormState) : Bool × CreateFormState :=
  match response with
  | none => (true, form)
  | some d =>
    (false, { title := d.title, type := d.type, priority := d.priority,
              notes := d.notes, tasks := d.tasks })

/-- Sample moment used as a concrete evaluation input: the Exam scenario
of the testable properties section, an active high-priority study moment
three days ahead of day 0. -/
def sampleMoment : Moment :=
  { id := "m1", title := "Exam", date := 3, type := MomentType.study,
    priority := Priority.high, initialEmotion := EmotionType.happy,
    notes := "", tasks := [], status := MomentStatus.active, createdAt := 0,
    emotionHistory := [], reflection := none }

/-- Sample past-due active moment: date yesterday relative to day 0. -/
def samplePastMoment : Moment :=
  { sampleMoment with id := "m3", date := -1 }

/-- Sample moment with another id, for the no-insert property of
updateMoment. -/
def otherMoment : Moment :=
  { sampleMoment with id := "m2" }

/-- Response of the AI assistant that parses as JSON but has none of the
fields of the structured plan shape (the parsed object of the body
\x7b\x7d). -/
def malformedPlan : AIPlanResponse :=
  { title := none, type := none, priority := none, notes := none,
    tasks := none }

/-- Initial create-form state (all fields defined, as in the
CreateMomentView useState initialisers). -/
def sampleForm : CreateFormState :=
  { title := some "", type := some "personal", priority := some "medium",
    notes := some "", tasks := some [] }

theorem getDaysRemaining_eq (targetDate today : Int) :
    getDaysRemaining targetDate today = targetDate - today := by
  unfold getDaysRemaining midnight
  have hms : ((msPerDay : Int) : ℚ) ≠ 0 := by
    norm_num [msPerDay]
  have h : ((targetDate * msPerDay - today * msPerDay : Int) : ℚ) / ((msPerDay : Int) : ℚ)
      = ((targetDate - today : Int) : ℚ) := by
    push_cast
    field_simp
    ring
  rw [h, Int.ceil_intCast]

theorem perm_activeMoments (moments : List Moment) :
    (activeMoments moments).Perm
      (moments.filter (fun m => m.status = MomentStatus.active)) :=
  List.perm_insertionSort _ _

theorem length_activeMoments (moments : List Moment) :
    (activeMoments moments).length
      = moments.countP (fun m => m.status = MomentStatus.active) := by
  rw [(perm_activeMoments moments).length_eq, ← List.countP_eq_length_filter]

theorem length_urgentMoments (today : Int) (moments : List Moment) :
    (urgentMoments today moments).length
      = moments.countP (fun m => m.status = MomentStatus.active
          ∧ m.priority = Priority.high ∧ getDaysRemaining m.date today ≤ 7) := by
  unfold urgentMoments
  rw [← List.countP_eq_length_filter,
      ((perm_activeMoments moments).countP_eq
        (fun m => decide (getDaysRemaining m.date today ≤ 7
          ∧ m.priority = Priority.high))),
      List.countP_filter]
  refine List.countP_congr (fun m _ => ?_)
  by_cases h1 : m.status = MomentStatus.active <;>
    by_cases h2 : m.priority = Priority.high <;>
      by_cases h3 : getDaysRemaining m.date today ≤ 7 <;>
        simp [h1, h2, h3]

theorem stressScore_counts (today : Int) (moments : List Moment) :
    stressScore today moments
      = 2 * moments.countP (fun m => m.status = MomentStatus.active
          ∧ m.priority = Priority.high ∧ getDaysRemaining m.date today ≤ 7)
        + moments.countP (fun m => m.status = MomentStatus.active) := by
  unfold stressScore
  rw [length_urgentMoments, length_activeMoments, Nat.mul_comm]

theorem fireReminders_store_subset (lang todayStr : String)
    (l : List Moment) (store : List String) :
    store ⊆ (fireReminders lang todayStr l store).2 := by
  induction l generalizing store with
  | nil => simp [fireReminders]
  | cons m rest ih =>
    intro k hk
    simp only [fireReminders]
    split
    · exact ih store hk
    · exact ih (notifiedKey m.id todayStr :: store) (List.mem_cons_of_mem _ hk)

theorem fireReminders_keys (lang todayStr : String)
    (l : List Moment) (store : List String) :
    ∀ m ∈ l, notifiedKey m.id todayStr ∈ (fireReminders lang todayStr l store).2 := by
  induction l generalizing store with
  | nil => simp
  | cons m rest ih =>
    intro x hx
    rcases List.mem_cons.mp hx with hx | hx
    · subst hx
      simp only [fireReminders]
      split
      · exact fireReminders_store_subset lang todayStr rest store (by assumption)
      · exact fireReminders_store_subset lang todayStr rest _ (List.mem_cons_self _ _)
    · simp only [fireReminders]
      split
      · exact ih store x hx
      · exact ih _ x hx

theorem fireReminders_of_all_stored (lang todayStr : String)
    (l : List Moment) (store : List String)
    (h : ∀ m ∈ l, notifiedKey m.id todayStr ∈ store) :
    fireReminders lang todayStr l store = ([], store) := by
  induction l with
  | nil => simp [fireReminders]
  | cons m rest ih =>
    have hm : notifiedKey m.id todayStr ∈ store := h m (List.mem_cons_self _ _)
    simp only [fireReminders, if_pos hm]
    exact ih (fun x hx => h x (List.mem_cons_of_mem _ hx))

theorem fireReminders_fired_mem (lang todayStr : String)
    (l : List Moment) (store : List String) :
    ∀ n ∈ (fireReminders lang todayStr l store).1,
      ∃ m ∈ l, n = { title := "MOMENTS", body := reminderBody lang m.title } := by
  induction l generalizing store with
  | nil => simp [fireReminders]
  | cons m rest ih =>
    intro n hn
    simp only [fireReminders] at hn
    split at hn
    · obtain ⟨x, hx, he⟩ := ih store n hn
      exact ⟨x, List.mem_cons_of_mem _ hx, he⟩
    · rcases List.mem_cons.mp hn with hn | hn
      · exact ⟨m, List.mem_cons_self _ _, hn⟩
      · obtain ⟨x, hx, he⟩ := ih _ n hn
        exact ⟨x, List.mem_cons_of_mem _ hx, he⟩

theorem fireReminders_nodup (lang todayStr : String)
    (l : List Moment) (store : List String) (h : store.Nodup) :
    (fireReminders lang todayStr l store).2.Nodup := by
  induction l generalizing store with
  | nil => simpa [fireReminders]
  | cons m rest ih =>
    simp only [fireReminders]
    split
    · exact ih store h
    · exact ih _ (List.nodup_cons.mpr ⟨by assumption, h⟩)

theorem fireReminders_length (lang todayStr : String)
    (l : List Moment) (store : List String) :
    (fireReminders lang todayStr l store).1.length + store.length
      = (fireReminders lang todayStr l store).2.length := by
  induction l generalizing store with
  | nil => simp [fireReminders]
  | cons m rest ih =>
    simp only [fireReminders]
    split
    · exact ih store
    · have := ih (notifiedKey m.id todayStr :: store)
      simp only [List.length_cons] at this ⊢
      omega

/-- C1: for every target date D and reference day N, daysRemaining(D, N)
is the ceiling of the difference of the two midnights over one day, it
equals the integer number D - N of calendar days between them, and it is
negative exactly when the target date has passed (D lies before N). -/
theorem daysRemaining_spec (D N : Int) :
    getDaysRemaining D N
      = ⌈((midnight D - midnight N : Int) : ℚ) / ((msPerDay : Int) : ℚ)⌉
    ∧ getDaysRemaining D N = D - N
    ∧ (getDaysRemaining D N < 0 ↔ D < N) := by
  refine ⟨rfl, getDaysRemaining_eq D N, ?_⟩
  rw [getDaysRemaining_eq]
  omega

/-- C2: stressScore is twice the number of active high-priority moments
with at most 7 days remaining plus the number of active moments, and the
derived vibe is chill for scores up to 5, balanced for 6 to 10 and
hectic above 10. -/
theorem stress_vibe_spec (today : Int) (moments : List Moment) :
    stressScore today moments
      = 2 * moments.countP (fun m => m.status = MomentStatus.active
          ∧ m.priority = Priority.high ∧ getDaysRemaining m.date today ≤ 7)
        + moments.countP (fun m => m.status = MomentStatus.active)
    ∧ (stressScore today moments ≤ 5 →
        vibeOf (stressScore today moments) = Vibe.chill)
    ∧ (6 ≤ stressScore today moments → stressScore today moments ≤ 10 →
        vibeOf (stressScore today moments) = Vibe.balanced)
    ∧ (10 < stressScore today moments →
        vibeOf (stressScore today moments) = Vibe.hectic) := by
  refine ⟨stressScore_counts today moments, ?_, ?_, ?_⟩ <;>
    · intros
      unfold vibeOf
      split_ifs <;> first | rfl | omega

/-- Witness for C2 at a concrete empty collection: the score is 0, the
count identity holds and the vibe is chill. -/
theorem stress_vibe_spec_witness :
    stressScore 0 ([] : List Moment) ≤ 5
      ∧ vibeOf (stressScore 0 ([] : List Moment)) = Vibe.chill :=
  ⟨by decide, (stress_vibe_spec 0 []).2.1 (by decide)⟩

/-- C3: saving a reflection with rating 0 is rejected and leaves the
collection untouched; with rating at least 1 it replaces the moment with
status completed and the reflection attached; no other mutation
(postpone, task toggle, emotion log append) changes the status. -/
theorem complete_requires_rating_spec (m : Moment) (rating : Nat)
    (lessons : String) (repeatable : Option Bool) (now : Int)
    (moments : List Moment) (taskId logId : String) (emo : EmotionType) :
    (rating = 0 →
      handleSaveReflection m rating lessons repeatable now moments = moments)
    ∧ (1 ≤ rating →
        handleSaveReflection m rating lessons repeatable now moments
          = updateMoment
              { m with status := MomentStatus.completed,
                       reflection := some { rating := rating,
                                            lessons := lessons,
                                            repeatable := repeatable = some true,
                                            completedDate := now } }
              moments
        ∧ ({ m with status := MomentStatus.completed,
                    reflection := some { rating := rating,
                                         lessons := lessons,
                                         repeatable := repeatable = some true,
                                         completedDate := now } } : Moment).status
            = MomentStatus.completed
        ∧ ({ m with status := MomentStatus.completed,
                    reflection := some { rating := rating,
                                         lessons := lessons,
                                         repeatable := repeatable = some true,
                                         completedDate := now } } : Moment).reflection
            = some { rating := rating,
                     lessons := lessons,
                     repeatable := repeatable = some true,
                     completedDate := now })
    ∧ (postponeMoment m).status = m.status
    ∧ (toggleTask taskId m).status = m.status
    ∧ (addEmotionLog logId now emo m).status = m.status := by
  refine ⟨fun h => ?_, fun h => ⟨?_, rfl, rfl⟩, rfl, rfl, rfl⟩
  · simp [handleSaveReflection, h]
  · have hne : rating ≠ 0 := by omega
    simp [handleSaveReflection, hne]

/-- Witness for C3: the rejected completion with rating 0 leaves the
singleton collection unchanged, and the completion with rating 4 sets
status completed with the reflection attached. -/
theorem complete_requires_rating_witness :
    handleSaveReflection sampleMoment 0 "" none 0 [sampleMoment] = [sampleMoment]
    ∧ handleSaveReflection sampleMoment 4 "learned" (some true) 9 [sampleMoment]
        = updateMoment
            { sampleMoment with
                status := MomentStatus.completed,
                reflection := some { rating := 4,
                                     lessons := "learned",
                                     repeatable := (some true : Option Bool) = some true,
                                     completedDate := 9 } }
            [sampleMoment] :=
  ⟨(complete_requires_rating_spec sampleMoment 0 "" none 0 [sampleMoment]
      "" "" EmotionType.happy).1 rfl,
   ((complete_requires_rating_spec sampleMoment 4 "learned" (some true) 9
      [sampleMoment] "" "" EmotionType.happy).2.1 (by omega)).1⟩

/-- C4: the notification check performs no action when permission is not
granted; every fired reminder belongs to an active moment with 0 or 1
days remaining; re-evaluating the same state on the updated key store
within the same day fires nothing; and keys are stored at most once
each, one new key per fired reminder. -/
theorem scheduler_spec (today : Int) (todayStr lang : String)
    (hasAPI : Bool) (permission : String) (moments : List Moment)
    (store : List String) :
    (permission ≠ "granted" →
      checkNotifications today todayStr lang hasAPI permission moments store
        = ([], store))
    ∧ (∀ n ∈ (checkNotifications today todayStr lang hasAPI permission
          moments store).1,
        ∃ m ∈ moments, m.status = MomentStatus.active
          ∧ (getDaysRemaining m.date today = 0 ∨ getDaysRemaining m.date today = 1)
          ∧ n = { title := "MOMENTS", body := reminderBody lang m.title })
    ∧ (checkNotifications today todayStr lang hasAPI permission moments
        (checkNotifications today todayStr lang hasAPI permission moments
          store).2).1 = []
    ∧ (store.Nodup →
        (checkNotifications today todayStr lang hasAPI permission moments
          store).2.Nodup)
    ∧ (checkNotifications today todayStr lang hasAPI permission moments
          store).1.length + store.length
        = (checkNotifications today todayStr lang hasAPI permission moments
            store).2.length := by
  by_cases hc : (activeMoments moments).length > 0 ∧ hasAPI = true
      ∧ permission = "granted"
  · simp only [checkNotifications, if_pos hc]
    refine ⟨fun h => absurd hc.2.2 h, fun n hn => ?_, ?_, ?_, ?_⟩
    · obtain ⟨m, hm, he⟩ := fireReminders_fired_mem lang todayStr _ store n hn
      have hmem := List.mem_filter.mp hm
      have hact := (perm_activeMoments moments).mem_iff.mp hmem.1
      have hact2 := List.mem_filter.mp hact
      refine ⟨m, hact2.1, by simpa using hact2.2, ?_, he⟩
      simpa using hmem.2
    · exact congrArg Prod.fst
        (fireReminders_of_all_stored lang todayStr _ _
          (fun m hm => fireReminders_keys lang todayStr _ store m hm))
    · exact fun h => fireReminders_nodup lang todayStr _ store h
    · exact fireReminders_length lang todayStr _ store
  · have h0 : checkNotifications today todayStr lang hasAPI permission
        moments store = ([], store) := by
      simp only [checkNotifications, if_neg hc]
    rw [h0]
    exact ⟨fun _ => rfl, by simp, congrArg Prod.fst h0, fun h => h, by simp⟩

/-- Witness for C4: with permission denied the check on a nonempty
active collection emits nothing and stores nothing. -/
theorem scheduler_spec_witness :
    checkNotifications 0 "Mon Oct 12 2026" "en" true "denied"
      [sampleMoment] [] = ([], []) :=
  (scheduler_spec 0 "Mon Oct 12 2026" "en" true "denied"
      [sampleMoment] []).1 (by decide)

/-- C5: postponing a past-due active moment shifts its date forward by
exactly 7 days, the status stays active and every other field is
unchanged. -/
theorem postpone_spec (today : Int) (m : Moment)
    (hact : m.status = MomentStatus.active)
    (_hpast : getDaysRemaining m.date today < 0) :
    (postponeMoment m).date = m.date + 7
    ∧ (postponeMoment m).status = MomentStatus.active
    ∧ (postponeMoment m).id = m.id
    ∧ (postponeMoment m).title = m.title
    ∧ (postponeMoment m).type = m.type
    ∧ (postponeMoment m).priority = m.priority
    ∧ (postponeMoment m).initialEmotion = m.initialEmotion
    ∧ (postponeMoment m).notes = m.notes
    ∧ (postponeMoment m).tasks = m.tasks
    ∧ (postponeMoment m).createdAt = m.createdAt
    ∧ (postponeMoment m).emotionHistory = m.emotionHistory
    ∧ (postponeMoment m).reflection = m.reflection := by
  refine ⟨rfl, ?_, rfl, rfl, rfl, rfl, rfl, rfl, rfl, rfl, rfl, rfl⟩
  exact hact

/-- Witness for C5: yesterday relative to day 0 is past due; postponing
moves the date from -1 to 6 and keeps the moment active. -/
theorem postpone_spec_witness :
    (postponeMoment samplePastMoment).date = samplePastMoment.date + 7
    ∧ (postponeMoment samplePastMoment).status = MomentStatus.active :=
  ⟨(postpone_spec 0 samplePastMoment rfl
      (by rw [getDaysRemaining_eq]; decide)).1,
   (postpone_spec 0 samplePastMoment rfl
      (by rw [getDaysRemaining_eq]; decide)).2.1⟩

/-- C6: create and update with an empty title or an empty date are
rejected as silent no-ops, leaving the prior collection exactly as it
was. -/
theorem validation_noop_spec (momentId : String) (tid : Nat → String)
    (logId : String) (now : Int) (title : String) (date : Option Int)
    (mt : MomentType) (pr : Priority) (emotion : EmotionType)
    (notes : String) (taskTexts : List String) (m : Moment)
    (tasks : List Task) (moments : List Moment)
    (h : title = "" ∨ date = none) :
    handleSave momentId tid logId now title date mt pr emotion notes
        taskTexts moments = moments
    ∧ handleUpdate m title date mt pr notes tasks moments = moments := by
  rcases h with h | h
  · subst h
    cases date <;> simp [handleSave, handleUpdate]
  · subst h
    exact ⟨rfl, rfl⟩

/-- Witness for C6: an empty title with a present date leaves the empty
collection untouched for both create and update. -/
theorem validation_noop_spec_witness :
    handleSave "id9" (fun _ => "t") "lg" 0 "" (some 5) MomentType.study
        Priority.low EmotionType.happy "" [] [] = ([] : List Moment)
    ∧ handleUpdate sampleMoment "" (some 5) MomentType.study Priority.low
        "" [] [] = ([] : List Moment) :=
  validation_noop_spec "id9" (fun _ => "t") "lg" 0 "" (some 5)
    MomentType.study Priority.low EmotionType.happy "" [] sampleMoment []
    [] (Or.inl rfl)

/-- C7 counterexample: the response that parses as the empty JSON object
is malformed with respect to the structured plan shape, yet
handleMagicPlan surfaces no error and overwrites every form field with
the absent values, so the form state does change. -/
theorem magic_plan_counterexample :
    wellFormedPlan malformedPlan = false
    ∧ (handleMagicPlan (some malformedPlan) sampleForm).1 = false
    ∧ (handleMagicPlan (some malformedPlan) sampleForm).2 ≠ sampleForm := by
  decide

/-- C7 as amended: when the request fails or the response body cannot be
parsed, handleMagicPlan surfaces one recoverable error and leaves the
form untouched; when the response parses as JSON, all five fields are
applied verbatim with no shape validation and no error, absent fields
becoming undefined. -/
theorem magic_plan_amended_spec (response : Option AIPlanResponse)
    (form : CreateFormState) :
    (response = none → handleMagicPlan response form = (true, form))
    ∧ (∀ d, response = some d →
        handleMagicPlan response form
          = (false, { title := d.title, type := d.type,
                      priority := d.priority, notes := d.notes,
                      tasks := d.tasks })) := by
  refine ⟨fun h => ?_, fun d h => ?_⟩ <;> subst h <;> rfl

/-- Witness for the amended C7: the failing request leaves the initial
form unchanged and shows the single alert. -/
theorem magic_plan_amended_spec_witness :
    handleMagicPlan none sampleForm = (true, sampleForm) :=
  (magic_plan_amended_spec none sampleForm).1 rfl

/-- C8: emotionScore maps happy and excited to 5, worried and stressed
to 1 and the remaining emotion to 3, and the emotion timeline is the
flattening of all emotion logs into timestamp-score pairs, sorted
ascending by timestamp for every input collection. -/
theorem emotion_timeline_spec :
    emotionScore EmotionType.happy = 5
    ∧ emotionScore EmotionType.excited = 5
    ∧ emotionScore EmotionType.worried = 1
    ∧ emotionScore EmotionType.stressed = 1
    ∧ emotionScore EmotionType.neutral = 3
    ∧ ∀ moments : List Moment,
        (emotionTimeline moments).Perm
          ((moments.map (fun m => m.emotionHistory.map
              (fun log => (log.date, emotionScore log.emotion)))).flatten)
        ∧ List.Sorted (fun a b : Int × Nat => a.1 ≤ b.1)
            (emotionTimeline moments) := by
  refine ⟨rfl, rfl, rfl, rfl, rfl, fun moments =>
    ⟨List.perm_insertionSort _ _, ?_⟩⟩
  haveI : IsTotal (Int × Nat) (fun a b => a.1 ≤ b.1) :=
    ⟨fun a b => Int.le_total a.1 b.1⟩
  haveI : IsTrans (Int × Nat) (fun a b => a.1 ≤ b.1) :=
    ⟨fun _ _ _ hab hbc => le_trans hab hbc⟩
  exact List.sorted_insertionSort _ _

/-- C9: appending an active moment never decreases the stress score, and
appending an active high-priority moment with at most 7 days remaining
increases it by at least 2. -/
theorem stress_monotone_spec (today : Int) (moments : List Moment)
    (m : Moment) :
    (m.status = MomentStatus.active →
      stressScore today moments ≤ stressScore today (moments ++ [m]))
    ∧ (m.status = MomentStatus.active → m.priority = Priority.high →
        getDaysRemaining m.date today ≤ 7 →
        stressScore today moments + 2 ≤ stressScore today (moments ++ [m])) := by
  have h1 := stressScore_counts today moments
  have h2 := stressScore_counts today (moments ++ [m])
  rw [List.countP_append, List.countP_append] at h2
  constructor
  · intro ha
    have hact : List.countP
        (fun x => decide (x.status = MomentStatus.active)) [m] = 1 := by
      simp [List.countP_cons, ha]
    rw [hact] at h2
    omega
  · intro ha hp hd
    have hact : List.countP
        (fun x => decide (x.status = MomentStatus.active)) [m] = 1 := by
      simp [List.countP_cons, ha]
    have hurg : List.countP
        (fun x => decide (x.status = MomentStatus.active
          ∧ x.priority = Priority.high
          ∧ getDaysRemaining x.date today ≤ 7)) [m] = 1 := by
      simp [List.countP_cons, ha, hp, hd]
    rw [hact, hurg] at h2
    omega

/-- Witness for C9: appending the urgent sample moment (active, high
priority, 3 days ahead of day 0) to the empty collection raises the
stress score by at least 2. -/
theorem stress_monotone_spec_witness :
    sampleMoment.status = MomentStatus.active
    ∧ sampleMoment.priority = Priority.high
    ∧ getDaysRemaining sampleMoment.date 0 ≤ 7
    ∧ stressScore 0 [] + 2 ≤ stressScore 0 ([] ++ [sampleMoment]) :=
  ⟨rfl, rfl, by rw [getDaysRemaining_eq]; decide,
   (stress_monotone_spec 0 [] sampleMoment).2 rfl rfl
     (by rw [getDaysRemaining_eq]; decide)⟩

/-- C10: updating with a moment whose id occurs nowhere in the
collection leaves the collection exactly unchanged; updateMoment never
inserts. -/
theorem update_no_insert_spec (u : Moment) (moments : List Moment)
    (h : ∀ m ∈ moments, m.id ≠ u.id) :
    updateMoment u moments = moments := by
  unfold updateMoment
  induction moments with
  | nil => rfl
  | cons x xs ih =>
    have hx : x.id ≠ u.id := h x (List.mem_cons_self _ _)
    simp only [List.map_cons, if_neg hx]
    rw [ih (fun m hm => h m (List.mem_cons_of_mem _ hm))]

/-- Witness for C10: updating with a moment of a fresh id leaves the
singleton collection as it was. -/
theorem update_no_insert_spec_witness :
    updateMoment otherMoment [sampleMoment] = [sampleMoment] :=
  update_no_insert_spec otherMoment [sampleMoment] (by decide)

end Moments
